import Mathlib

/-!
# state_saver (Neargye/state_saver, version 0.4.6)

A shallow embedding of `include/state_saver.hpp`.

* The guarded object is reached through the reference member `previous_ref_`.
  A reference is embedded by state passing: every operation that may write
  through `previous_ref_` receives the current contents of the referenced
  object and returns the new contents.
* `detail::uncaught_exceptions()` reads the C++ runtime. Its result at the
  moment of a call is an explicit `Int` argument (`int` in the source; no
  arithmetic is done on it, so no wrap-around is involved).
* `operator=` of the guarded type `T` is the value assignment of the examples
  (`int`) and of the test classes (`struct A` with defaulted assignment): it
  does not throw and leaves the target equal to the source. Under this reading
  `STATE_SAVER_TRY` / `STATE_SAVER_CATCH` have nothing to catch and copy- and
  move-assignment write the same value. The section on guarded types whose
  operations may throw gives the constructor, `restore()` and the destructor
  for operations that fail, with the throwable and assignable settings.
-/

namespace state_saver

namespace detail

/-- The struct `on_exit_policy`, with its member `bool restore_`. -/
structure on_exit_policy where
  restore_ : Bool
  deriving DecidableEq, Repr

/-- The default member initializer `restore_{true}`. -/
def on_exit_policy.init : on_exit_policy :=
  ⟨true⟩

/-- The method `on_exit_policy::dismiss`: `restore_ = false;`. -/
def on_exit_policy.dismiss (_self : on_exit_policy) : on_exit_policy :=
  ⟨false⟩

/-- The method `on_exit_policy::should_restore`: `return restore_;`. -/
def on_exit_policy.should_restore (self : on_exit_policy) : Bool :=
  self.restore_

/-- The struct `on_fail_policy`, with its member `int ec_`. -/
structure on_fail_policy where
  ec_ : Int
  deriving DecidableEq, Repr

/-- The default member initializer `ec_{uncaught_exceptions()}`; the argument
is the value of `uncaught_exceptions()` when the policy is constructed. -/
def on_fail_policy.init (uncaught_exceptions : Int) : on_fail_policy :=
  ⟨uncaught_exceptions⟩

/-- The method `on_fail_policy::dismiss`: `ec_ = -1;`. -/
def on_fail_policy.dismiss (_self : on_fail_policy) : on_fail_policy :=
  ⟨-1⟩

/-- The method `on_fail_policy::should_restore`:
`return ec_ != -1 && ec_ < uncaught_exceptions();`; the argument is the value
of `uncaught_exceptions()` at the moment of the query. -/
def on_fail_policy.should_restore (self : on_fail_policy) (uncaught_exceptions : Int) : Bool :=
  self.ec_ != -1 && decide (self.ec_ < uncaught_exceptions)

/-- The struct `on_success_policy`, with its member `int ec_`. -/
structure on_success_policy where
  ec_ : Int
  deriving DecidableEq, Repr

/-- The default member initializer `ec_{uncaught_exceptions()}`. -/
def on_success_policy.init (uncaught_exceptions : Int) : on_success_policy :=
  ⟨uncaught_exceptions⟩

/-- The method `on_success_policy::dismiss`: `ec_ = -1;`. -/
def on_success_policy.dismiss (_self : on_success_policy) : on_success_policy :=
  ⟨-1⟩

/-- The method `on_success_policy::should_restore`:
`return ec_ != -1 && ec_ >= uncaught_exceptions();`. -/
def on_success_policy.should_restore (self : on_success_policy) (uncaught_exceptions : Int) : Bool :=
  self.ec_ != -1 && decide (self.ec_ ≥ uncaught_exceptions)

/-- The template parameter `P` of `state_saver<U, P>`. The `static_assert` on
`P` admits exactly `on_exit_policy`, `on_fail_policy` and `on_success_policy`;
these are the three instances. `init` is value-initialisation `P{}` (it reads
`uncaught_exceptions()` for two of the policies), `should_restore` receives the
value of `uncaught_exceptions()` at the moment of the query. -/
class Policy (P : Type) where
  init : Int → P
  dismiss : P → P
  should_restore : P → Int → Bool

instance : Policy on_exit_policy where
  init _ := on_exit_policy.init
  dismiss := on_exit_policy.dismiss
  should_restore p _ := p.should_restore

instance : Policy on_fail_policy where
  init := on_fail_policy.init
  dismiss := on_fail_policy.dismiss
  should_restore := on_fail_policy.should_restore

instance : Policy on_success_policy where
  init := on_success_policy.init
  dismiss := on_success_policy.dismiss
  should_restore := on_success_policy.should_restore

/-- The class template `state_saver<U, P>`: the members `P policy_` and
`T previous_value_`. The third member, `T& previous_ref_`, is the referenced
object itself and is passed to the operations that use it. -/
structure state_saver (T P : Type) where
  policy_ : P
  previous_value_ : T
  deriving DecidableEq, Repr

variable {T P : Type}

/-- The constructor `state_saver(T& object, P policy)`:
`policy_(policy), previous_ref_(object), previous_value_(object)`. -/
def state_saver.ctor (object : T) (policy : P) : state_saver T P :=
  ⟨policy, object⟩

/-- The method `state_saver::dismiss`: `policy_.dismiss();`. -/
def state_saver.dismiss [Policy P] (self : state_saver T P) : state_saver T P :=
  ⟨Policy.dismiss self.policy_, self.previous_value_⟩

/-- The method `state_saver::restore`: `previous_ref_ = previous_value_;`, a
copy assignment whatever the policy says. Returns the guard after the call and
the new contents of the referenced object. -/
def state_saver.restore (self : state_saver T P) (_previous_ref_ : T) : state_saver T P × T :=
  (self, self.previous_value_)

/-- The destructor `~state_saver`:
`if (policy_.should_restore()) previous_ref_ = static_cast<assignable_t>(previous_value_);`.
Returns the contents of the referenced object once the guard is gone. -/
def state_saver.dtor [Policy P] (self : state_saver T P) (uncaught_exceptions : Int)
    (previous_ref_ : T) : T :=
  if Policy.should_restore self.policy_ uncaught_exceptions then self.previous_value_
  else previous_ref_

end detail

open detail

variable {T : Type}

/-- The constructor `state_saver_exit(U& object)`: the generic guard with
`detail::on_exit_policy{}`. -/
def state_saver_exit (object : T) : state_saver T on_exit_policy :=
  state_saver.ctor object on_exit_policy.init

/-- The constructor `state_saver_fail(U& object)`: the generic guard with
`detail::on_fail_policy{}`. -/
def state_saver_fail (object : T) (uncaught_exceptions : Int) : state_saver T on_fail_policy :=
  state_saver.ctor object (on_fail_policy.init uncaught_exceptions)

/-- The constructor `state_saver_succes(U& object)`: the generic guard with
`detail::on_success_policy{}`. -/
def state_saver_succes (object : T) (uncaught_exceptions : Int) :
    state_saver T on_success_policy :=
  state_saver.ctor object (on_success_policy.init uncaught_exceptions)

/-! ## Client code

What a function such as `some_function` of the tests does between the
construction of the guard and the end of its scope. -/

/-- One statement of the client: an assignment to the guarded object
(`a.i = other_test_value;`), `guard.dismiss();` or `guard.restore();`. -/
inductive Stmt (T : Type) where
  | assign (x : T)
  | dismiss
  | restore
  deriving DecidableEq, Repr

variable {P : Type}

/-- Executes one statement on the pair (guard, guarded object). -/
def Stmt.exec [Policy P] : Stmt T → state_saver T P × T → state_saver T P × T
  | .assign x, (g, _) => (g, x)
  | .dismiss, (g, a) => (g.dismiss, a)
  | .restore, (g, a) => g.restore a

/-- Executes the statements of a scope body in order. -/
def exec_body [Policy P] : List (Stmt T) → state_saver T P × T → state_saver T P × T
  | [], s => s
  | st :: rest, s => exec_body rest (st.exec s)

/-- A whole scope over the object `object`: the guard is constructed while
`uncaught_exceptions()` is `uc_ctor`, the statements of `body` run, and the
guard is destroyed while `uncaught_exceptions()` is `uc_dtor`. The result is
the value of the object after the scope. -/
def run_scope (P : Type) [Policy P] (object : T) (uc_ctor : Int) (body : List (Stmt T))
    (uc_dtor : Int) : T :=
  let s := exec_body body (state_saver.ctor object (Policy.init uc_ctor : P), object)
  s.1.dtor uc_dtor s.2

/-! ## Settings and the assignment used by the destructor

The preprocessor settings and the type traits that the header queries are
compile-time inputs; they are explicit arguments here. -/

namespace detail

/-- The throwable settings. Exactly one is in force: `STATE_SAVER_MAY_EXCEPTIONS`
is defined when none is given and defining more than one is an `#error`. -/
inductive throwable_setting where
  | STATE_SAVER_MAY_EXCEPTIONS
  | STATE_SAVER_NO_EXCEPTIONS
  | STATE_SAVER_SUPPRESS_EXCEPTIONS
  deriving DecidableEq, Repr

/-- The assignable settings: neither flag, or one of the two (defining both is
an `#error`). -/
inductive assignable_setting where
  | unset
  | STATE_SAVER_FORCE_MOVE_ASSIGNABLE
  | STATE_SAVER_FORCE_COPY_ASSIGNABLE
  deriving DecidableEq, Repr

/-- The second argument of the assignment traits: `T&` (copy assignment from
an lvalue) or `T&&` (move assignment from an rvalue). -/
inductive assign_from where
  | lvalue_ref
  | rvalue_ref
  deriving DecidableEq, Repr

/-- The values, for the guarded type `T`, of the four traits named in the
header: `std::is_assignable<T&, T&>`, `std::is_nothrow_assignable<T&, T&>`,
`std::is_assignable<T&, T&&>` and `std::is_nothrow_assignable<T&, T&&>`. -/
structure assign_traits where
  is_assignable_lvalue : Bool
  is_nothrow_assignable_lvalue : Bool
  is_assignable_rvalue : Bool
  is_nothrow_assignable_rvalue : Bool
  deriving DecidableEq, Repr

/-- The trait `std::is_assignable<T&, X>::value` for `X` one of `T&`, `T&&`. -/
def assign_traits.is_assignable (t : assign_traits) : assign_from → Bool
  | .lvalue_ref => t.is_assignable_lvalue
  | .rvalue_ref => t.is_assignable_rvalue

/-- The trait `std::is_nothrow_assignable<T&, X>::value`. -/
def assign_traits.is_nothrow_assignable (t : assign_traits) : assign_from → Bool
  | .lvalue_ref => t.is_nothrow_assignable_lvalue
  | .rvalue_ref => t.is_nothrow_assignable_rvalue

/-- What the C++ library guarantees about the traits of any type: an
assignment that is known not to throw is in particular an assignment. -/
def assign_traits.consistent (t : assign_traits) : Bool :=
  (!t.is_nothrow_assignable_lvalue || t.is_assignable_lvalue) &&
    (!t.is_nothrow_assignable_rvalue || t.is_assignable_rvalue)

/-- The member type `assignable_t` of `state_saver<U, P>`:
`T&&` under `STATE_SAVER_FORCE_MOVE_ASSIGNABLE`, `T&` under
`STATE_SAVER_FORCE_COPY_ASSIGNABLE`, and otherwise
`std::conditional<is_nothrow_assignable<T&, T&&> || !is_assignable<T&, T&> ||
(!is_nothrow_assignable<T&, T&> && is_assignable<T&, T&&>), T&&, T&>::type`. -/
def assignable_t (s : assignable_setting) (t : assign_traits) : assign_from :=
  match s with
  | .STATE_SAVER_FORCE_MOVE_ASSIGNABLE => .rvalue_ref
  | .STATE_SAVER_FORCE_COPY_ASSIGNABLE => .lvalue_ref
  | .unset =>
    if t.is_nothrow_assignable_rvalue || !t.is_assignable_lvalue ||
        (!t.is_nothrow_assignable_lvalue && t.is_assignable_rvalue)
    then .rvalue_ref else .lvalue_ref

/-- The first `static_assert` of the destructor,
`std::is_assignable<T&, assignable_t>::value` ("state_saver require
operator="): true when the assertion holds. -/
def dtor_require_assignable (s : assignable_setting) (t : assign_traits) : Bool :=
  t.is_assignable (assignable_t s t)

/-- The second `static_assert` of the destructor, compiled only under
`STATE_SAVER_NO_EXCEPTIONS`: `std::is_nothrow_assignable<T&, assignable_t>::value`
("state_saver require noexcept operator="). True when the header accepts the
type on this account. -/
def dtor_require_noexcept (m : throwable_setting) (s : assignable_setting)
    (t : assign_traits) : Bool :=
  match m with
  | .STATE_SAVER_NO_EXCEPTIONS => t.is_nothrow_assignable (assignable_t s t)
  | _ => true

end detail

/-- The selection rule as the specification words it (section 4.3, item 3):
move-assignment "when move-assignment is guaranteed non-throwing, or when
copy-assignment is not available, or when copy-assignment may throw but
move-assignment is non-throwing; otherwise prefer copy-assignment". -/
def assignable_by_the_text (t : assign_traits) : assign_from :=
  if t.is_nothrow_assignable_rvalue || !t.is_assignable_lvalue ||
      (!t.is_nothrow_assignable_lvalue && t.is_nothrow_assignable_rvalue)
  then .rvalue_ref else .lvalue_ref

/-! ## Guarded types whose operations may throw

The sections above read `operator=` as a value assignment. Here the copy
constructor and the assignment operators of `T` are arbitrary functions that
may throw an exception of type `E`; an assignment that throws leaves the
target in whatever state it reports. -/

/-- How a call ends: it returns, an exception leaves it, or `std::terminate`
is called because an exception reached a `noexcept` boundary. -/
inductive Completion (E R : Type) where
  | returned (r : R)
  | threw (e : E)
  | terminated
  deriving DecidableEq, Repr

/-- The operations of the guarded type `T` that the guard calls, with the
traits the header queries about them: the copy construction `T(T&)`, and
`operator=` as overload resolution picks it for an lvalue (`T&`) and for an
rvalue (`T&&`) right-hand side. An assignment takes the contents of the target
and the source and gives the new contents of the target and the exception it
throws, if any. -/
structure guarded_ops (T E : Type) where
  traits : assign_traits
  is_nothrow_constructible : Bool
  copy_construct : T → Except E T
  assign_lvalue : T → T → T × Option E
  assign_rvalue : T → T → T × Option E

variable {E : Type}

/-- The assignment `previous_ref_ = static_cast<X>(previous_value_)` for `X`
one of `T&`, `T&&`. -/
def guarded_ops.assign (ops : guarded_ops T E) : assign_from → T → T → T × Option E
  | .lvalue_ref => ops.assign_lvalue
  | .rvalue_ref => ops.assign_rvalue

namespace detail

/-- The constructor `state_saver(T& object, P policy)
noexcept(std::is_nothrow_constructible<T, T&>::value)` for a copy construction
that may throw. The constructor only reads `object` (it binds `previous_ref_`
and copy-constructs `previous_value_`), so the object keeps its contents. -/
def state_saver.ctor_throwing (ops : guarded_ops T E) (object : T) (policy : P) :
    Completion E (state_saver T P) :=
  match ops.copy_construct object with
  | .ok v => .returned ⟨policy, v⟩
  | .error e => if ops.is_nothrow_constructible then .terminated else .threw e

end detail

/-- A scope whose guard construction may throw. When the constructor does not
return, no guard object exists, so no destructor runs at the end of the scope
and the exception (or the termination) is what the caller sees; the object is
as the constructor left it, that is, untouched. When the constructor returns,
the scope proceeds as `run_scope` with the snapshot the copy constructor
produced. -/
def run_scope_ctor_throwing (P : Type) [Policy P] (ops : guarded_ops T E) (object : T)
    (uc_ctor : Int) (body : List (Stmt T)) (uc_dtor : Int) : T × Completion E Unit :=
  match state_saver.ctor_throwing ops object (Policy.init uc_ctor : P) with
  | .returned g =>
    let s := exec_body body (g, object)
    (s.1.dtor uc_dtor s.2, .returned ())
  | .threw e => (object, .threw e)
  | .terminated => (object, .terminated)

/-! ## Client code that throws -/

/-- A statement of the client, or a `throw` (as `throw std::runtime_error`
in the tests). -/
inductive Cmd (T : Type) where
  | stmt (s : Stmt T)
  | raise
  deriving DecidableEq, Repr

/-- The statements that are executed: those before the first `throw`. -/
def executed_stmts : List (Cmd T) → List (Stmt T)
  | [] => []
  | .stmt s :: rest => s :: executed_stmts rest
  | .raise :: _ => []

/-- Whether control reaches a `throw`. -/
def reaches_throw : List (Cmd T) → Bool
  | [] => false
  | .stmt _ :: rest => reaches_throw rest
  | .raise :: _ => true

/-- A function such as `some_function` of the tests: the guard is constructed
while `uncaught_exceptions()` is `uc`, the code runs up to its end or to its
first `throw`, and the guard is destroyed: on normal return while
`uncaught_exceptions()` is still `uc`, during unwinding while it is
`uc_unwinding`. The result is the value of the object afterwards. -/
def run_function (P : Type) [Policy P] (object : T) (uc : Int) (code : List (Cmd T))
    (uc_unwinding : Int) : T :=
  run_scope P object uc (executed_stmts code) (if reaches_throw code then uc_unwinding else uc)

/-- Two nested scopes over one object, each with an exit guard that is not
dismissed: the outer guard is constructed while the object holds `v0`, the
object is set to `v1`, the inner guard is constructed over the same object,
the object is set to `v2`, the inner scope ends (`uncaught_exceptions()` is
`uc_inner` in the inner destructor) and then the outer scope ends
(`uc_outer`). The result is the value of the object after the inner and after
the outer destruction. -/
def nested_exit_scopes (v0 v1 v2 : T) (uc_inner uc_outer : Int) : T × T :=
  let a := v0
  let outer_guard := state_saver_exit a
  let a := v1
  let inner_guard := state_saver_exit a
  let a := v2
  let after_inner := inner_guard.dtor uc_inner a
  let after_outer := outer_guard.dtor uc_outer after_inner
  (after_inner, after_outer)

/-- A guarded type over `Int` values whose copy construction and assignments
always throw (the exception is `()`), the assignments leaving the target as it
was; none of its operations is declared non-throwing. -/
def always_throwing_ops : guarded_ops Int Unit :=
  ⟨⟨true, false, true, false⟩, false, fun _ => .error (), fun a _ => (a, some ()),
    fun a _ => (a, some ())⟩

/-! ## Decisions to compare the policies with

These are not in the header: they are the alternatives that the policies are
compared against. -/

/-- The decision of a guard that only asks "is the thread unwinding now?": a
boolean flag, true when `uncaught_exceptions()` is above zero. It keeps no
baseline. -/
def unwinding_flag_decision (uncaught_exceptions : Int) : Bool :=
  decide (uncaught_exceptions > 0)

/-- The body of `on_fail_policy::should_restore` with the sentinel test
`ec_ != -1` left out: `ec_ < uncaught_exceptions()`. -/
def fail_should_restore_without_sentinel (self : on_fail_policy) (uncaught_exceptions : Int) :
    Bool :=
  decide (self.ec_ < uncaught_exceptions)

/-- The body of `on_success_policy::should_restore` with the sentinel test
`ec_ != -1` left out: `ec_ >= uncaught_exceptions()`. -/
def success_should_restore_without_sentinel (self : on_success_policy)
    (uncaught_exceptions : Int) : Bool :=
  decide (self.ec_ ≥ uncaught_exceptions)

/-! ## Auxiliary facts about scope bodies -/

theorem exec_body_append [Policy P] (b1 b2 : List (Stmt T)) (s : state_saver T P × T) :
    exec_body (b1 ++ b2) s = exec_body b2 (exec_body b1 s) := by
  induction b1 generalizing s with
  | nil => rfl
  | cons st rest ih => simpa [exec_body] using ih (st.exec s)

theorem exec_previous_value [Policy P] (st : Stmt T) (s : state_saver T P × T) :
    (st.exec s).1.previous_value_ = s.1.previous_value_ := by
  obtain ⟨g, a⟩ := s
  cases st <;> rfl

theorem exec_body_previous_value [Policy P] (body : List (Stmt T)) (s : state_saver T P × T) :
    (exec_body body s).1.previous_value_ = s.1.previous_value_ := by
  induction body generalizing s with
  | nil => rfl
  | cons st rest ih =>
    show (exec_body rest (st.exec s)).1.previous_value_ = _
    rw [ih, exec_previous_value]

theorem exec_body_no_dismiss [Policy P] (body : List (Stmt T)) (s : state_saver T P × T)
    (h : Stmt.dismiss ∉ body) : (exec_body body s).1 = s.1 := by
  induction body generalizing s with
  | nil => rfl
  | cons st rest ih =>
    have hst : st ≠ Stmt.dismiss := fun e => h (by simp [e])
    have hrest : Stmt.dismiss ∉ rest := fun m => h (List.mem_cons_of_mem _ m)
    show (exec_body rest (st.exec s)).1 = s.1
    rw [ih _ hrest]
    obtain ⟨g, a⟩ := s
    cases st with
    | assign x => rfl
    | dismiss => exact absurd rfl hst
    | restore => rfl

theorem exec_body_dismissed [Policy P]
    (hd : ∀ (p : P) (uc : Int), Policy.should_restore (Policy.dismiss p) uc = false)
    (body : List (Stmt T)) (s : state_saver T P × T)
    (h : Stmt.dismiss ∈ body ∨ ∀ uc : Int, Policy.should_restore s.1.policy_ uc = false)
    (uc : Int) : Policy.should_restore (exec_body body s).1.policy_ uc = false := by
  induction body generalizing s with
  | nil =>
    rcases h with h | h
    · simp at h
    · exact h uc
  | cons st rest ih =>
    show Policy.should_restore (exec_body rest (st.exec s)).1.policy_ uc = false
    apply ih
    obtain ⟨g, a⟩ := s
    cases st with
    | assign x =>
      rcases h with h | h
      · left; simpa using h
      · right; exact h
    | dismiss => right; intro uc2; exact hd _ uc2
    | restore =>
      rcases h with h | h
      · left; simpa using h
      · right; exact h

theorem exit_dismiss_never_restores (p : on_exit_policy) (uc : Int) :
    Policy.should_restore (Policy.dismiss p) uc = false := rfl

theorem fail_dismiss_never_restores (p : on_fail_policy) (uc : Int) :
    Policy.should_restore (Policy.dismiss p) uc = false := rfl

theorem success_dismiss_never_restores (p : on_success_policy) (uc : Int) :
    Policy.should_restore (Policy.dismiss p) uc = false := rfl

theorem exec_body_replicate_restore [Policy P] (n : Nat) (g : state_saver T P) (a : T) :
    exec_body (List.replicate n Stmt.restore) (g, a)
      = (g, if n = 0 then a else g.previous_value_) := by
  induction n generalizing a with
  | zero => rfl
  | succ k ih =>
    show exec_body (List.replicate k Stmt.restore) (g, g.previous_value_) = _
    rw [ih]
    by_cases hk : k = 0 <;> simp [hk]

theorem fail_iterate_dismiss (n : Nat) (p : on_fail_policy) :
    on_fail_policy.dismiss^[n + 1] p = ⟨-1⟩ := by
  induction n generalizing p with
  | zero => rfl
  | succ k ih => rw [Function.iterate_succ_apply, ih]

theorem success_iterate_dismiss (n : Nat) (p : on_success_policy) :
    on_success_policy.dismiss^[n + 1] p = ⟨-1⟩ := by
  induction n generalizing p with
  | zero => rfl
  | succ k ih => rw [Function.iterate_succ_apply, ih]

/-! ## Properties of the policies and of the guard -/

/-- C1. An exit guard constructed over an object holding `v0` and never
dismissed leaves the object equal to `v0` after its destruction, for every
sequence of statements of the scope without `dismiss()` (assignments to the
object and calls of `restore()`) and for every value of
`uncaught_exceptions()` at construction and at destruction (normal return or
unwinding). -/
theorem exit_guard_restores (v0 : T) (body : List (Stmt T)) (uc_ctor uc_dtor : Int)
    (h : Stmt.dismiss ∉ body) :
    run_scope on_exit_policy v0 uc_ctor body uc_dtor = v0 := by
  unfold run_scope
  simp only [state_saver.dtor]
  rw [exec_body_no_dismiss body _ h]
  rfl

theorem exit_guard_restores_witness :
    Stmt.dismiss ∉ [Stmt.assign (1 : Int), Stmt.restore, Stmt.assign 7] ∧
      run_scope on_exit_policy (0 : Int) 0 [Stmt.assign 1, Stmt.restore, Stmt.assign 7] 1 = 0 :=
  ⟨by decide, exit_guard_restores 0 _ 0 1 (by decide)⟩

/-- C2. For a fail policy constructed while `uncaught_exceptions()` is `b`
(a count, so `0 ≤ b`) and then dismissed `n` times, `should_restore()` queried
while `uncaught_exceptions()` is `probe` is true if and only if `dismiss()` was
never called (`n = 0`) and `probe` is strictly greater than `b`. -/
theorem fail_should_restore_iff (b probe : Int) (n : Nat) (hb : 0 ≤ b) :
    (on_fail_policy.dismiss^[n] (on_fail_policy.init b)).should_restore probe = true
      ↔ (n = 0 ∧ b < probe) := by
  cases n with
  | zero =>
    have : b ≠ -1 := by omega
    simp [on_fail_policy.should_restore, on_fail_policy.init, this]
  | succ k =>
    rw [fail_iterate_dismiss]
    simp [on_fail_policy.should_restore]

theorem fail_should_restore_iff_witness :
    (0 : Int) ≤ 0 ∧
      ((on_fail_policy.dismiss^[0] (on_fail_policy.init 0)).should_restore 1 = true
        ↔ ((0 : Nat) = 0 ∧ (0 : Int) < 1)) :=
  ⟨by decide, fail_should_restore_iff 0 1 0 (by decide)⟩

/-- C3. For a success policy constructed while `uncaught_exceptions()` is `b`
(a count, so `0 ≤ b`) and then dismissed `n` times, `should_restore()` queried
while `uncaught_exceptions()` is `probe` is true if and only if `dismiss()` was
never called (`n = 0`) and `probe` is less than or equal to `b`. -/
theorem success_should_restore_iff (b probe : Int) (n : Nat) (hb : 0 ≤ b) :
    (on_success_policy.dismiss^[n] (on_success_policy.init b)).should_restore probe = true
      ↔ (n = 0 ∧ probe ≤ b) := by
  cases n with
  | zero =>
    have : b ≠ -1 := by omega
    simp [on_success_policy.should_restore, on_success_policy.init, this]
  | succ k =>
    rw [success_iterate_dismiss]
    simp [on_success_policy.should_restore]

theorem success_should_restore_iff_witness :
    (0 : Int) ≤ 2 ∧
      ((on_success_policy.dismiss^[0] (on_success_policy.init 2)).should_restore 2 = true
        ↔ ((0 : Nat) = 0 ∧ (2 : Int) ≤ 2)) :=
  ⟨by decide, success_should_restore_iff 2 2 0 (by decide)⟩

/-- C4. A fail guard is constructed over an object holding `v0` while
`uncaught_exceptions()` is `b`, the object is set to `v1`, and the scope ends
normally (`uncaught_exceptions()` is again `b` in the destructor): the object
holds `v1` afterwards (also when `v1 = v0`). -/
theorem fail_guard_keeps_on_normal_end (v0 v1 : T) (b : Int) :
    run_scope on_fail_policy v0 b [Stmt.assign v1] b = v1 := by
  simp [run_scope, exec_body, Stmt.exec, state_saver.dtor, state_saver.ctor, Policy.init,
    Policy.should_restore, on_fail_policy.should_restore, on_fail_policy.init]

/-- C5. A fail guard is constructed over an object holding `v0` while
`uncaught_exceptions()` is `b` (a count, so `0 ≤ b`), the object is set to
`v1`, and the scope ends by an error propagating through it
(`uncaught_exceptions()` is `p > b` in the destructor) with no `dismiss()`
executed: the object holds `v0` afterwards. -/
theorem fail_guard_restores_on_error (v0 v1 : T) (b p : Int) (hb : 0 ≤ b) (hp : b < p) :
    run_scope on_fail_policy v0 b [Stmt.assign v1] p = v0 := by
  have : b ≠ -1 := by omega
  simp [run_scope, exec_body, Stmt.exec, state_saver.dtor, state_saver.ctor, Policy.init,
    Policy.should_restore, on_fail_policy.should_restore, on_fail_policy.init, this, hp]

theorem fail_guard_restores_on_error_witness :
    ((0 : Int) ≤ 0 ∧ (0 : Int) < 1) ∧
      run_scope on_fail_policy (0 : Int) 0 [Stmt.assign 3] 1 = 0 :=
  ⟨by decide, fail_guard_restores_on_error 0 3 0 1 (by decide) (by decide)⟩

/-- C6. A success guard is constructed over an object holding `v0` while
`uncaught_exceptions()` is `b` (a count, so `0 ≤ b`) and the object is set to
`v1`. If the scope ends normally (`uncaught_exceptions()` is again `b`) the
object holds `v0` afterwards; if it ends by an error propagating through it
(`uncaught_exceptions()` is `p > b`) the object holds `v1` afterwards. -/
theorem success_guard_dual (v0 v1 : T) (b p : Int) (hb : 0 ≤ b) (hp : b < p) :
    run_scope on_success_policy v0 b [Stmt.assign v1] b = v0 ∧
      run_scope on_success_policy v0 b [Stmt.assign v1] p = v1 := by
  have h1 : b ≠ -1 := by omega
  have h2 : ¬ p ≤ b := by omega
  constructor
  · simp [run_scope, exec_body, Stmt.exec, state_saver.dtor, state_saver.ctor, Policy.init,
      Policy.should_restore, on_success_policy.should_restore, on_success_policy.init, h1]
  · simp [run_scope, exec_body, Stmt.exec, state_saver.dtor, state_saver.ctor, Policy.init,
      Policy.should_restore, on_success_policy.should_restore, on_success_policy.init, h2]

theorem success_guard_dual_witness :
    ((0 : Int) ≤ 0 ∧ (0 : Int) < 1) ∧
      (run_scope on_success_policy (0 : Int) 0 [Stmt.assign 2] 0 = 0 ∧
        run_scope on_success_policy (0 : Int) 0 [Stmt.assign 2] 1 = 2) :=
  ⟨by decide, success_guard_dual 0 2 0 1 (by decide) (by decide)⟩

/-- C7. For each of the three policies: if the statements executed in the
scope contain a `dismiss()`, then for every value of `uncaught_exceptions()`
at construction and in the destructor the destruction leaves the object at the
value it held when the scope body ended. -/
theorem dismiss_suppresses_restore (v0 : T) (body : List (Stmt T)) (uc_ctor uc_dtor : Int)
    (h : Stmt.dismiss ∈ body) :
    run_scope on_exit_policy v0 uc_ctor body uc_dtor
        = (exec_body body (state_saver_exit v0, v0)).2 ∧
      run_scope on_fail_policy v0 uc_ctor body uc_dtor
        = (exec_body body (state_saver_fail v0 uc_ctor, v0)).2 ∧
      run_scope on_success_policy v0 uc_ctor body uc_dtor
        = (exec_body body (state_saver_succes v0 uc_ctor, v0)).2 := by
  refine ⟨?_, ?_, ?_⟩
  · have := exec_body_dismissed exit_dismiss_never_restores body
      (state_saver_exit v0, v0) (Or.inl h) uc_dtor
    unfold run_scope
    simp only [state_saver.dtor]
    rw [show (state_saver.ctor v0 (Policy.init uc_ctor : on_exit_policy))
      = state_saver_exit v0 from rfl, this]
    rfl
  · have := exec_body_dismissed fail_dismiss_never_restores body
      (state_saver_fail v0 uc_ctor, v0) (Or.inl h) uc_dtor
    unfold run_scope
    simp only [state_saver.dtor]
    rw [show (state_saver.ctor v0 (Policy.init uc_ctor : on_fail_policy))
      = state_saver_fail v0 uc_ctor from rfl, this]
    rfl
  · have := exec_body_dismissed success_dismiss_never_restores body
      (state_saver_succes v0 uc_ctor, v0) (Or.inl h) uc_dtor
    unfold run_scope
    simp only [state_saver.dtor]
    rw [show (state_saver.ctor v0 (Policy.init uc_ctor : on_success_policy))
      = state_saver_succes v0 uc_ctor from rfl, this]
    rfl

theorem dismiss_suppresses_restore_witness :
    Stmt.dismiss ∈ [Stmt.assign (5 : Int), Stmt.dismiss] ∧
      (run_scope on_exit_policy (0 : Int) 0 [Stmt.assign 5, Stmt.dismiss] 1
          = (exec_body [Stmt.assign 5, Stmt.dismiss] (state_saver_exit 0, 0)).2 ∧
        run_scope on_fail_policy (0 : Int) 0 [Stmt.assign 5, Stmt.dismiss] 1
          = (exec_body [Stmt.assign 5, Stmt.dismiss] (state_saver_fail 0 0, 0)).2 ∧
        run_scope on_success_policy (0 : Int) 0 [Stmt.assign 5, Stmt.dismiss] 1
          = (exec_body [Stmt.assign 5, Stmt.dismiss] (state_saver_succes 0 0, 0)).2) :=
  ⟨by decide, dismiss_suppresses_restore 0 _ 0 1 (by decide)⟩

/-- C8, counterexample. As in `foo6`: an exit guard over an object
holding `0`, the object set to `6`, then `dismiss()` and `restore()`. The
object holds `6` before the `restore()` and the snapshot `0`, not `6`, after
it. -/
theorem restore_after_dismiss_counterexample :
    (exec_body [Stmt.assign 6, Stmt.dismiss] (state_saver_exit (0 : Int), 0)).2 = 6 ∧
      (exec_body [Stmt.assign 6, Stmt.dismiss, Stmt.restore] (state_saver_exit (0 : Int), 0)).2
        = 0 ∧
      ¬ (exec_body [Stmt.assign 6, Stmt.dismiss, Stmt.restore]
          (state_saver_exit (0 : Int), 0)).2 = 6 := by
  decide

/-- C8, amended. `restore()` has no `force` argument and does not consult the
policy: for every policy, after the object was set to `v1`, `dismiss()`
followed by `restore()` leaves the object equal to the snapshot `v0`. -/
theorem restore_after_dismiss_writes_snapshot (P : Type) [Policy P] (v0 v1 : T) (uc : Int) :
    (exec_body [Stmt.assign v1, Stmt.dismiss, Stmt.restore]
      (state_saver.ctor v0 (Policy.init uc : P), v0)).2 = v0 := by
  rfl

/-- C9. For every policy, every snapshot `v0` and every sequence of statements
executed before (assignments, `dismiss()`, earlier `restore()` calls), the
object equals `v0` right after a call of `restore()`; and for a guard in any
state, whatever `should_restore()` would answer, `restore()` writes the
snapshot over any current value of the object. -/
theorem restore_is_unconditional (P : Type) [Policy P] (v0 : T) (uc : Int)
    (body : List (Stmt T)) :
    (exec_body (body ++ [Stmt.restore]) (state_saver.ctor v0 (Policy.init uc : P), v0)).2 = v0 ∧
      ∀ (g : state_saver T P) (a : T), (g.restore a).2 = g.previous_value_ := by
  constructor
  · rw [exec_body_append]
    show (exec_body body _).1.previous_value_ = v0
    rw [exec_body_previous_value]
    rfl
  · intro g a
    rfl

/-- C10. `restore()` does not consume the snapshot. For an exit guard with
snapshot `v0`, not dismissed, and any current value `a` of the object: after
`n` calls of `restore()` and an assignment of any `x` to the object, the
destructor (for any value of `uncaught_exceptions()`) leaves the object equal
to `v0`. For a guard of any policy, the guard after `restore()`, its snapshot
included, is the guard before it. -/
theorem restore_non_consuming (v0 a x : T) (n : Nat) (uc_dtor : Int) :
    (exec_body (List.replicate n Stmt.restore ++ [Stmt.assign x])
        (state_saver_exit v0, a)).1.dtor uc_dtor
      (exec_body (List.replicate n Stmt.restore ++ [Stmt.assign x])
        (state_saver_exit v0, a)).2 = v0 ∧
    ∀ (P : Type) (g : state_saver T P) (b : T),
      (g.restore b).1 = g ∧ (g.restore b).1.previous_value_ = g.previous_value_ := by
  constructor
  · rw [exec_body_append, exec_body_replicate_restore]
    rfl
  · intro P g b
    exact ⟨rfl, rfl⟩

/-- C11. Nested exit guards restore last-in-first-out: with an outer exit
guard constructed while the object holds `v0`, the object set to `v1`, an
inner exit guard constructed over the same object, the object set to `v2`,
and neither guard dismissed, the object holds `v1` after the inner destruction
and `v0` after the outer one, for every value of `uncaught_exceptions()` in the
two destructors. -/
theorem nested_exit_guards_lifo (v0 v1 v2 : T) (uc_inner uc_outer : Int) :
    nested_exit_scopes v0 v1 v2 uc_inner uc_outer = (v1, v0) := by
  rfl

/-- C12, counterexample. A type whose copy- and move-assignment both exist and
both may throw (consistent traits): `assignable_t` is `T&&`, move-assignment,
while none of the three conditions of the text holds, so the text asks for
copy-assignment. -/
theorem assignable_t_text_counterexample :
    (⟨true, false, true, false⟩ : assign_traits).consistent = true ∧
      assignable_t .unset ⟨true, false, true, false⟩ = .rvalue_ref ∧
      assignable_by_the_text ⟨true, false, true, false⟩ = .lvalue_ref ∧
      assignable_t .unset ⟨true, false, true, false⟩
        ≠ assignable_by_the_text ⟨true, false, true, false⟩ := by
  decide

/-- C12, amended. With neither force flag set, for every combination of the
four assignment traits, `assignable_t` is `T&&` (move-assignment) exactly when
move-assignment is non-throwing, or copy-assignment is not available, or
copy-assignment is not non-throwing while move-assignment is available; in
every other case it is `T&` (copy-assignment). It differs from the rule of the
text exactly for the types whose copy- and move-assignment both exist and both
may throw. -/
theorem assignable_t_unset_iff (t : assign_traits) :
    (assignable_t .unset t = .rvalue_ref ↔
      (t.is_nothrow_assignable_rvalue = true ∨ t.is_assignable_lvalue = false ∨
        (t.is_nothrow_assignable_lvalue = false ∧ t.is_assignable_rvalue = true))) ∧
    (assignable_t .unset t = .lvalue_ref ↔
      ¬ (t.is_nothrow_assignable_rvalue = true ∨ t.is_assignable_lvalue = false ∨
        (t.is_nothrow_assignable_lvalue = false ∧ t.is_assignable_rvalue = true))) ∧
    (assignable_t .unset t ≠ assignable_by_the_text t ↔
      (t.is_assignable_lvalue = true ∧ t.is_nothrow_assignable_lvalue = false ∧
        t.is_assignable_rvalue = true ∧ t.is_nothrow_assignable_rvalue = false)) := by
  obtain ⟨l, nl, r, nr⟩ := t
  cases l <;> cases nl <;> cases r <;> cases nr <;> decide

/-- C13. With neither force flag set and traits that are consistent (a
non-throwing assignment is an assignment), the assertion "state_saver require
operator=" of the destructor holds exactly when the type has a copy- or a
move-assignment: with at least one of them the selected `assignable_t` is one
the type supports, and the assertion fires only when the type has neither. -/
theorem dtor_require_assignable_iff (t : assign_traits) (h : t.consistent = true) :
    dtor_require_assignable .unset t = true ↔
      (t.is_assignable_lvalue = true ∨ t.is_assignable_rvalue = true) := by
  obtain ⟨l, nl, r, nr⟩ := t
  revert h
  cases l <;> cases nl <;> cases r <;> cases nr <;> decide

theorem dtor_require_assignable_iff_witness :
    (⟨true, false, false, false⟩ : assign_traits).consistent = true ∧
      (dtor_require_assignable .unset ⟨true, false, false, false⟩ = true ↔
        ((⟨true, false, false, false⟩ : assign_traits).is_assignable_lvalue = true ∨
          (⟨true, false, false, false⟩ : assign_traits).is_assignable_rvalue = true)) :=
  ⟨by decide, dtor_require_assignable_iff ⟨true, false, false, false⟩ (by decide)⟩

/-- C15. If the copy construction of the snapshot throws `e` (the copy
constructor not being declared non-throwing), the constructor of the guard ends
with `e` thrown to the caller and yields no guard; the scope then ends with
`e`, runs no destructor (no restore) whatever its statements and the values of
`uncaught_exceptions()` are, and the object holds the value it had before the
construction attempt. -/
theorem ctor_failure_surfaces (P : Type) [Policy P] (ops : guarded_ops T E) (object : T) (e : E)
    (uc_ctor uc_dtor : Int) (body : List (Stmt T))
    (hfail : ops.copy_construct object = .error e)
    (hcan : ops.is_nothrow_constructible = false) :
    state_saver.ctor_throwing ops object (Policy.init uc_ctor : P) = .threw e ∧
      run_scope_ctor_throwing P ops object uc_ctor body uc_dtor = (object, .threw e) := by
  have h1 : state_saver.ctor_throwing ops object (Policy.init uc_ctor : P) = .threw e := by
    simp [state_saver.ctor_throwing, hfail, hcan]
  refine ⟨h1, ?_⟩
  unfold run_scope_ctor_throwing
  rw [h1]

theorem ctor_failure_surfaces_witness :
    (always_throwing_ops.copy_construct 4 = .error () ∧
      always_throwing_ops.is_nothrow_constructible = false) ∧
    (state_saver.ctor_throwing always_throwing_ops 4 (Policy.init 0 : on_exit_policy)
        = .threw () ∧
      run_scope_ctor_throwing on_exit_policy always_throwing_ops 4 0 [Stmt.assign 9] 0
        = (4, .threw ())) :=
  ⟨⟨rfl, rfl⟩, ctor_failure_surfaces on_exit_policy always_throwing_ops 4 () 0 0
    [Stmt.assign 9] rfl rfl⟩

/-! ## Auxiliary facts about code that throws and about dismissed guards -/

theorem executed_stmts_before_raise (pre : List (Stmt T)) (post : List (Cmd T)) :
    executed_stmts (pre.map Cmd.stmt ++ Cmd.raise :: post) = pre := by
  induction pre with
  | nil => rfl
  | cons st rest ih => simp [executed_stmts, ih]

theorem reaches_throw_before_raise (pre : List (Stmt T)) (post : List (Cmd T)) :
    reaches_throw (pre.map Cmd.stmt ++ Cmd.raise :: post) = true := by
  induction pre with
  | nil => rfl
  | cons st rest ih => simpa [reaches_throw] using ih

theorem run_scope_of_dismiss_mem [Policy P]
    (hd : ∀ (p : P) (uc : Int), Policy.should_restore (Policy.dismiss p) uc = false)
    (v0 : T) (uc_ctor uc_dtor : Int) (body : List (Stmt T)) (h : Stmt.dismiss ∈ body) :
    run_scope P v0 uc_ctor body uc_dtor
      = (exec_body body (state_saver.ctor v0 (Policy.init uc_ctor : P), v0)).2 := by
  have := exec_body_dismissed hd body
    (state_saver.ctor v0 (Policy.init uc_ctor : P), v0) (Or.inl h) uc_dtor
  unfold run_scope
  simp only [state_saver.dtor]
  rw [this]
  rfl

theorem exec_body_ends_with_assign [Policy P] (pre mid : List (Stmt T)) (v1 : T)
    (s : state_saver T P × T) :
    (exec_body (pre ++ (mid ++ [Stmt.assign v1])) s).2 = v1 := by
  rw [exec_body_append, exec_body_append]
  rfl

/-- C16, counterexample. As in the test "called on error, dismiss after
error": a fail guard over an object holding `0`, the object set to `3`, a
`throw`, and a `dismiss()` after it that is never reached. The destructor runs
during unwinding and restores: the object holds `0`, not `3`. The same holds
for an exit guard. -/
theorem dismiss_after_throw_counterexample :
    run_function on_fail_policy (0 : Int) 0
        [Cmd.stmt (Stmt.assign 3), Cmd.raise, Cmd.stmt Stmt.dismiss] 1 = 0 ∧
      run_function on_exit_policy (0 : Int) 0
        [Cmd.stmt (Stmt.assign 3), Cmd.raise, Cmd.stmt Stmt.dismiss] 1 = 0 ∧
      ¬ run_function on_fail_policy (0 : Int) 0
        [Cmd.stmt (Stmt.assign 3), Cmd.raise, Cmd.stmt Stmt.dismiss] 1 = 3 := by
  decide

/-- C16, amended. When an error is thrown in the scope of a guard before any
`dismiss()` has run, a `dismiss()` written after the `throw` has no effect:
whatever follows the `throw`, the end of the scope (the destructor seeing
`uncaught_exceptions()` above the count `uc` of construction) restores the
snapshot `v0` for the exit and the fail policy, and for the success policy
leaves the object at the value it held when the error was thrown. -/
theorem dismiss_after_throw_unreached (v0 : T) (pre : List (Stmt T)) (post : List (Cmd T))
    (uc uc_unwinding : Int) (h : Stmt.dismiss ∉ pre) (hb : 0 ≤ uc) (hu : uc < uc_unwinding) :
    run_function on_exit_policy v0 uc (pre.map Cmd.stmt ++ Cmd.raise :: post) uc_unwinding = v0 ∧
      run_function on_fail_policy v0 uc (pre.map Cmd.stmt ++ Cmd.raise :: post) uc_unwinding
        = v0 ∧
      run_function on_success_policy v0 uc (pre.map Cmd.stmt ++ Cmd.raise :: post) uc_unwinding
        = (exec_body pre (state_saver_succes v0 uc, v0)).2 := by
  have h1 : uc ≠ -1 := by omega
  have h2 : ¬ uc_unwinding ≤ uc := by omega
  unfold run_function run_scope
  simp only [executed_stmts_before_raise, reaches_throw_before_raise, if_true,
    state_saver.dtor]
  refine ⟨?_, ?_, ?_⟩
  · rw [exec_body_no_dismiss pre _ h]
    rfl
  · rw [exec_body_no_dismiss pre _ h]
    simp [state_saver.ctor, Policy.init, Policy.should_restore, on_fail_policy.should_restore,
      on_fail_policy.init, h1, hu]
  · rw [exec_body_no_dismiss pre _ h]
    simp [state_saver.ctor, Policy.init, Policy.should_restore,
      on_success_policy.should_restore, on_success_policy.init, h2, state_saver_succes]

theorem dismiss_after_throw_unreached_witness :
    (Stmt.dismiss ∉ [Stmt.assign (3 : Int)] ∧ (0 : Int) ≤ 0 ∧ (0 : Int) < 1) ∧
    (run_function on_exit_policy (0 : Int) 0
        ([Stmt.assign 3].map Cmd.stmt ++ Cmd.raise :: [Cmd.stmt Stmt.dismiss]) 1 = 0 ∧
      run_function on_fail_policy (0 : Int) 0
        ([Stmt.assign 3].map Cmd.stmt ++ Cmd.raise :: [Cmd.stmt Stmt.dismiss]) 1 = 0 ∧
      run_function on_success_policy (0 : Int) 0
        ([Stmt.assign 3].map Cmd.stmt ++ Cmd.raise :: [Cmd.stmt Stmt.dismiss]) 1
        = (exec_body [Stmt.assign 3] (state_saver_succes 0 0, 0)).2) :=
  ⟨by decide, dismiss_after_throw_unreached 0 [Stmt.assign 3] [Cmd.stmt Stmt.dismiss] 0 1
    (by decide) (by decide) (by decide)⟩

/-- C18. For each of the three policies `dismiss()` is idempotent (a second
`dismiss()` leaves the policy, and the guard, as the first one did) and
irreversible: after `dismiss()`, whatever statements follow (assignments,
`dismiss()`, `restore()`), `should_restore()` is false for every value of
`uncaught_exceptions()`. -/
theorem dismiss_idempotent_irreversible (body : List (Stmt T)) (a : T) (uc : Int) :
    ((∀ p : on_exit_policy, p.dismiss.dismiss = p.dismiss) ∧
      (∀ p : on_fail_policy, p.dismiss.dismiss = p.dismiss) ∧
      (∀ p : on_success_policy, p.dismiss.dismiss = p.dismiss)) ∧
    ((∀ g : state_saver T on_exit_policy, g.dismiss.dismiss = g.dismiss) ∧
      (∀ g : state_saver T on_fail_policy, g.dismiss.dismiss = g.dismiss) ∧
      (∀ g : state_saver T on_success_policy, g.dismiss.dismiss = g.dismiss)) ∧
    ((∀ g : state_saver T on_exit_policy,
        (exec_body body (g.dismiss, a)).1.policy_.should_restore = false) ∧
      (∀ g : state_saver T on_fail_policy,
        (exec_body body (g.dismiss, a)).1.policy_.should_restore uc = false) ∧
      (∀ g : state_saver T on_success_policy,
        (exec_body body (g.dismiss, a)).1.policy_.should_restore uc = false)) := by
  refine ⟨⟨fun _ => rfl, fun _ => rfl, fun _ => rfl⟩, ⟨fun _ => rfl, fun _ => rfl, fun _ => rfl⟩,
    ⟨fun g => ?_, fun g => ?_, fun g => ?_⟩⟩
  · exact exec_body_dismissed exit_dismiss_never_restores body (g.dismiss, a)
      (Or.inr fun _ => rfl) uc
  · exact exec_body_dismissed fail_dismiss_never_restores body (g.dismiss, a)
      (Or.inr fun _ => rfl) uc
  · exact exec_body_dismissed success_dismiss_never_restores body (g.dismiss, a)
      (Or.inr fun _ => rfl) uc

/-- C19. An explicit `restore()` does not re-arm a dismissed guard: for each
of the three policies, after any earlier statements, the sequence `dismiss()`,
`restore()`, assignment of `v1` to the object, end of scope leaves the object
equal to `v1`, for every value of `uncaught_exceptions()` at construction and
in the destructor. -/
theorem restore_does_not_rearm (v0 v1 : T) (pre : List (Stmt T)) (uc_ctor uc_dtor : Int) :
    run_scope on_exit_policy v0 uc_ctor
        (pre ++ ([Stmt.dismiss, Stmt.restore] ++ [Stmt.assign v1])) uc_dtor = v1 ∧
      run_scope on_fail_policy v0 uc_ctor
        (pre ++ ([Stmt.dismiss, Stmt.restore] ++ [Stmt.assign v1])) uc_dtor = v1 ∧
      run_scope on_success_policy v0 uc_ctor
        (pre ++ ([Stmt.dismiss, Stmt.restore] ++ [Stmt.assign v1])) uc_dtor = v1 := by
  have hm : Stmt.dismiss ∈ pre ++ ([Stmt.dismiss, Stmt.restore] ++ [Stmt.assign v1]) := by simp
  refine ⟨?_, ?_, ?_⟩
  · rw [run_scope_of_dismiss_mem exit_dismiss_never_restores _ _ _ _ hm,
      exec_body_ends_with_assign]
  · rw [run_scope_of_dismiss_mem fail_dismiss_never_restores _ _ _ _ hm,
      exec_body_ends_with_assign]
  · rw [run_scope_of_dismiss_mem success_dismiss_never_restores _ _ _ _ hm,
      exec_body_ends_with_assign]

/-- C20. With neither force flag set and consistent traits: if the guarded
type has a non-throwing copy- or move-assignment, the selected `assignable_t`
is a non-throwing assignment; and under `STATE_SAVER_NO_EXCEPTIONS` the two
assertions of the destructor hold exactly when the type has a non-throwing
assignment, so that setting rejects the destructor only for types with no
non-throwing assignment at all. -/
theorem dtor_noexcept_selection (t : assign_traits) (h : t.consistent = true) :
    ((t.is_nothrow_assignable_lvalue = true ∨ t.is_nothrow_assignable_rvalue = true) →
      t.is_nothrow_assignable (assignable_t .unset t) = true) ∧
    ((dtor_require_assignable .unset t &&
        dtor_require_noexcept .STATE_SAVER_NO_EXCEPTIONS .unset t) = true ↔
      (t.is_nothrow_assignable_lvalue = true ∨ t.is_nothrow_assignable_rvalue = true)) := by
  obtain ⟨l, nl, r, nr⟩ := t
  revert h
  cases l <;> cases nl <;> cases r <;> cases nr <;> decide

theorem dtor_noexcept_selection_witness :
    (⟨true, true, true, false⟩ : assign_traits).consistent = true ∧
    ((((⟨true, true, true, false⟩ : assign_traits).is_nothrow_assignable_lvalue = true ∨
        (⟨true, true, true, false⟩ : assign_traits).is_nothrow_assignable_rvalue = true) →
      (⟨true, true, true, false⟩ : assign_traits).is_nothrow_assignable
        (assignable_t .unset ⟨true, true, true, false⟩) = true) ∧
    ((dtor_require_assignable .unset ⟨true, true, true, false⟩ &&
        dtor_require_noexcept .STATE_SAVER_NO_EXCEPTIONS .unset ⟨true, true, true, false⟩) = true ↔
      ((⟨true, true, true, false⟩ : assign_traits).is_nothrow_assignable_lvalue = true ∨
        (⟨true, true, true, false⟩ : assign_traits).is_nothrow_assignable_rvalue = true))) :=
  ⟨by decide, dtor_noexcept_selection ⟨true, true, true, false⟩ (by decide)⟩

/-- C21. The counter comparison of the fail policy is not the boolean test "is
the thread unwinding": for a guard constructed while an error is already in
flight (baseline `n + 1`, at least one) and destroyed with
`uncaught_exceptions()` unchanged, `on_fail_policy::should_restore()` is false
while the flag decision `uncaught_exceptions() > 0` is true; in particular
such a baseline and probe value exist. -/
theorem fail_policy_is_not_a_flag :
    (∀ n : Nat, (on_fail_policy.init ((n : Int) + 1)).should_restore ((n : Int) + 1) = false ∧
      unwinding_flag_decision ((n : Int) + 1) = true) ∧
    (∃ b p : Int, 1 ≤ b ∧ p = b ∧ (on_fail_policy.init b).should_restore p = false ∧
      unwinding_flag_decision p = true) := by
  constructor
  · intro n
    constructor
    · simp [on_fail_policy.should_restore, on_fail_policy.init]
    · simp only [unwinding_flag_decision, decide_eq_true_eq]
      omega
  · exact ⟨1, 1, by decide, rfl, by decide, by decide⟩

/-- C22. For a fail policy and a success policy holding the same baseline `b`
other than the sentinel `-1` (not dismissed) and every value `p` of
`uncaught_exceptions()`, exactly one of the two `should_restore()` is true;
when both policies are dismissed, both are false. -/
theorem fail_success_complementary (b p : Int) (hb : b ≠ -1) :
    (((on_fail_policy.mk b).should_restore p = true ∧
          (on_success_policy.mk b).should_restore p = false) ∨
        ((on_fail_policy.mk b).should_restore p = false ∧
          (on_success_policy.mk b).should_restore p = true)) ∧
    ((on_fail_policy.mk b).dismiss.should_restore p = false ∧
      (on_success_policy.mk b).dismiss.should_restore p = false) := by
  refine ⟨?_, by simp [on_fail_policy.should_restore, on_fail_policy.dismiss],
    by simp [on_success_policy.should_restore, on_success_policy.dismiss]⟩
  by_cases h : b < p
  · left
    have h2 : ¬ p ≤ b := by omega
    simp [on_fail_policy.should_restore, on_success_policy.should_restore, hb, h, h2]
  · right
    have h2 : p ≤ b := by omega
    simp [on_fail_policy.should_restore, on_success_policy.should_restore, hb, h, h2]

theorem fail_success_complementary_witness :
    (0 : Int) ≠ -1 ∧
    ((((on_fail_policy.mk 0).should_restore 1 = true ∧
          (on_success_policy.mk 0).should_restore 1 = false) ∨
        ((on_fail_policy.mk 0).should_restore 1 = false ∧
          (on_success_policy.mk 0).should_restore 1 = true)) ∧
    ((on_fail_policy.mk 0).dismiss.should_restore 1 = false ∧
      (on_success_policy.mk 0).dismiss.should_restore 1 = false)) :=
  ⟨by decide, fail_success_complementary 0 1 (by decide)⟩

/-- C23. For every non-negative value `p` of `uncaught_exceptions()`: in
`on_success_policy::should_restore()` the sentinel test `ec_ != -1` is
redundant, the result being that of `ec_ >= uncaught_exceptions()` for every
`ec_`, the sentinel `-1` included; in `on_fail_policy::should_restore()` it is
necessary, since for `ec_ == -1` the comparison `ec_ < uncaught_exceptions()`
alone is true while `should_restore()` is false. -/
theorem sentinel_test_redundant_for_success_only (ec p : Int) (hp : 0 ≤ p) :
    (on_success_policy.mk ec).should_restore p
        = success_should_restore_without_sentinel (on_success_policy.mk ec) p ∧
      (fail_should_restore_without_sentinel (on_fail_policy.mk (-1)) p = true ∧
        (on_fail_policy.mk (-1)).should_restore p = false) := by
  refine ⟨?_, ?_, ?_⟩
  · by_cases h : ec = -1
    · subst h
      have h2 : ¬ p ≤ -1 := by omega
      simp [on_success_policy.should_restore, success_should_restore_without_sentinel, h2]
    · simp [on_success_policy.should_restore, success_should_restore_without_sentinel, h]
  · simp only [fail_should_restore_without_sentinel, decide_eq_true_eq]
    omega
  · simp [on_fail_policy.should_restore]

theorem sentinel_test_redundant_for_success_only_witness :
    (0 : Int) ≤ 0 ∧
    ((on_success_policy.mk (-1)).should_restore 0
        = success_should_restore_without_sentinel (on_success_policy.mk (-1)) 0 ∧
      (fail_should_restore_without_sentinel (on_fail_policy.mk (-1)) 0 = true ∧
        (on_fail_policy.mk (-1)).should_restore 0 = false)) :=
  ⟨by decide, sentinel_test_redundant_for_success_only (-1) 0 (by decide)⟩

end state_saver
